import Mathlib

/-!
Verification of the request admission and lifecycle pipeline of the
backend API (Express application).  The development shallowly embeds:

* the Origin Validator (`isAllowedOrigin`, serverless variant, and the
  configured allow lists of both application variants);
* the middleware pipeline in its registration order, with the rate
  limiter, the slow-down stage, the request-id stage and the terminal
  error handler;
* the graceful-shutdown handler of `server.js`;
* the startup environment-variable check of both variants and the
  best-effort cache-store initialization.

Machine integers do not occur: counters, timestamps and HTTP statuses
are natural numbers in the source (JavaScript numbers used only in a
small integral range).
-/

/-! ### Origin Validator -/

/-- Allow list of the local application variant (source part_000, lines 75–85). -/
def allowedOriginsLocal : List String :=
  ["http://localhost:3000",
   "http://localhost:5173",
   "https://delibup.netlify.app",
   "capacitor://localhost",
   "http://localhost",
   "https://localhost",
   "https://dellibup.onrender.com",
   "https://delibup.netlify.app"]

/-- Allow list of the serverless application variant (source part_000, lines 286–294). -/
def allowedOrigins : List String :=
  ["http://localhost:3000",
   "http://localhost:5173",
   "https://capstonedelibup-o7sl.onrender.com",
   "capacitor://localhost",
   "http://localhost",
   "https://localhost",
   "https://dellibup.onrender.com"]

/-- Characters after the first scheme separator "://" of the character list,
provided at least one character precedes the separator; `none` when no
separator occurs (the URL constructor then throws for origin-shaped input). -/
def afterSchemeSep : Bool → List Char → Option (List Char)
  | _, [] => none
  | seen, ':' :: '/' :: '/' :: rest => if seen then some rest else none
  | _, _ :: rest => afterSchemeSep true rest

/-- Hostname computed by the WHATWG URL constructor, restricted to
origin-shaped absolute URLs (scheme://host[:port], no userinfo, no
IPv6 literal): the text after "://" up to the next '/', ':', '?' or '#',
lowercased; `none` models a constructor throw. -/
def urlHostname? (s : String) : Option String :=
  match afterSchemeSep false s.data with
  | none => none
  | some rest =>
    let h := rest.takeWhile (fun c => c != '/' && c != ':' && c != '?' && c != '#')
    if h.isEmpty then none else some (String.mk (h.map Char.toLower))

/-- Suffix test on strings by character lists, as used for the wildcard
domain check (JavaScript String.endsWith). -/
def strEndsWith (s suf : String) : Bool :=
  decide (suf.data.length ≤ s.data.length) &&
    s.data.drop (s.data.length - suf.data.length) == suf.data

/-- Origin Validator of the serverless variant (source part_000, lines 296–305):
absent origin allowed; exact match against the allow list allowed; a parsed
hostname ending in ".vercel.app" allowed; otherwise denied.  A pure function
of the origin and the configured set. -/
def isAllowedOrigin (origin : Option String) : Bool :=
  match origin with
  | none => true
  | some o =>
    if o ∈ allowedOrigins then true
    else
      match urlHostname? o with
      | some h => strEndsWith h ".vercel.app"
      | none => false

/-- Origin callback of the local variant (source part_000, lines 87–97):
absent origin allowed, otherwise exact membership in the local allow list. -/
def localOriginAllowed (origin : Option String) : Bool :=
  match origin with
  | none => true
  | some o => o ∈ allowedOriginsLocal

/-! ### Rate-limit and slow-down bookkeeping

The two admission stages are the `express-rate-limit` and
`express-slow-down` middlewares; their configuration is in the source
(part_000, lines 56–69), their store is library code outside the
repository.  Modelled from the spec: a fixed window per client key
(§4.2), reset when the window elapses, one counter per stage. -/

/-- Per-key fixed-window counter: window start timestamp and hit count. -/
structure Bucket where
  windowStart : Nat
  count : Nat
deriving DecidableEq, Repr

/-- Store of the fixed-window counters, one bucket per client key. -/
abbrev RLState := List (String × Bucket)

/-- Bucket of a key, if present. -/
def rlLookup (st : RLState) (k : String) : Option Bucket :=
  List.lookup k st

/-- Replace the bucket of a key. -/
def rlSet (st : RLState) (k : String) (b : Bucket) : RLState :=
  (k, b) :: st.filter (fun p => p.1 != k)

/-- Modelled from the spec: one hit of the fixed-window counter (§4.2).
Inside a live window the count increments; on a fresh key or an elapsed
window the count restarts at 1 with the window aligned to the current
request.  Returns the new store and the hit total of the key. -/
def rlHit (windowMs : Nat) (st : RLState) (now : Nat) (k : String) : RLState × Nat :=
  match rlLookup st k with
  | some b =>
    if now < b.windowStart + windowMs then
      (rlSet st k ⟨b.windowStart, b.count + 1⟩, b.count + 1)
    else
      (rlSet st k ⟨now, 1⟩, 1)
  | none => (rlSet st k ⟨now, 1⟩, 1)

/-- Ceiling-stage admission: a request is admitted while its hit total
does not exceed the configured maximum. -/
def rlAdmit (maxReq : Nat) (hits : Nat) : Bool :=
  hits ≤ maxReq

/-- Hit totals of a sequence of requests of one key at the given times,
starting from an empty store (used to replay the spec scenario). -/
def rlRun (windowMs : Nat) (times : List Nat) (k : String) : RLState × List Nat :=
  times.foldl
    (fun acc t =>
      let r := rlHit windowMs acc.1 t k
      (r.1, acc.2 ++ [r.2]))
    ([], [])

/-- Added delay of the slow-down stage (source part_000, lines 65–69:
delayAfter 50, delayMs 500; spec §4.2): each request over the threshold
is delayed by a further `delayMs`. -/
def sdDelay (delayAfter delayMs used : Nat) : Nat :=
  if delayAfter < used then (used - delayAfter) * delayMs else 0

/-! ### The request pipeline -/

/-- Stages of the middleware pipeline, one constructor per `app.use`
registration of the source (part_000: lines 41, 72, 87, 99, 100, 101,
104, 110, 111, and route dispatch). -/
inductive Stage
  | securityHeaders
  | compressionStage
  | originCheck
  | bodyParseJson
  | bodyParseUrlencoded
  | requestLog
  | contextAssign
  | rateLimiter
  | speedLimiter
  | dispatch
deriving DecidableEq, Repr

/-- Registration order of the pipeline stages in the source. -/
def pipelineStages : List Stage :=
  [Stage.securityHeaders, Stage.compressionStage, Stage.originCheck,
   Stage.bodyParseJson, Stage.bodyParseUrlencoded, Stage.requestLog,
   Stage.contextAssign, Stage.rateLimiter, Stage.speedLimiter, Stage.dispatch]

/-- Configuration resolved at startup (rate window and ceiling from the
environment with the defaults of lines 57–58; delay threshold and step
from lines 67–68; production switches the internal error detail). -/
structure Config where
  windowMs : Nat := 900000
  maxReq : Nat := 100
  delayAfter : Nat := 50
  delayMs : Nat := 500
  production : Bool := false
deriving DecidableEq, Repr

/-- Default configuration (no overriding environment variables). -/
def defaultConfig : Config := {}

/-- An error value raised inside the pipeline or by a handler
(JavaScript Error: constructor name, message, optional status field). -/
structure JsError where
  name : String
  message : String
  status : Option Nat := none
deriving DecidableEq, Repr

/-- Outcome of route dispatch: the handler responds, or raises an error
that flows to the terminal error handler. -/
inductive HandlerOut
  | ok (status : Nat)
  | raiseErr (e : JsError)
deriving DecidableEq, Repr

/-- A JSON response body; `none` fields are absent keys (an undefined
value is dropped by the JSON serializer). -/
structure JsonBody where
  error : String
  message : Option String := none
  details : Option String := none
  requestId : Option String := none
deriving DecidableEq, Repr

/-- An HTTP response: status and body.  Success bodies are outside the
modelled core and carry the empty error label. -/
structure Response where
  status : Nat
  body : JsonBody
deriving DecidableEq, Repr

/-- Error taxonomy of the spec (§4.6), used to record which branch of
the code produced an error response. -/
inductive ErrClass
  | validation
  | unauthorized
  | crossOriginDenied
  | rateLimited
  | notFound
  | internal
deriving DecidableEq, Repr

/-- A structured log record carrying the request identifier field. -/
structure LogRecord where
  requestId : Option String
deriving DecidableEq, Repr

/-- An inbound request: declared origin, whether the path is under the
rate-limited /api mount, client key (ip), arrival time, the identifier
the context stage would generate, and the dispatch outcome. -/
structure Request where
  origin : Option String
  underApi : Bool
  key : String
  time : Nat
  freshId : String
  handler : HandlerOut
deriving DecidableEq, Repr

/-- Mutable per-request pipeline state: the assigned request id (absent
until the context stage), whether the finish-log callback is registered,
the two admission stores and the accumulated artificial delay. -/
structure PipeState where
  assignedId : Option String := none
  logRegistered : Bool := false
  rl : RLState := []
  sd : RLState := []
  delayed : Nat := 0
deriving DecidableEq, Repr

/-- Fixed 429 rejection of the rate limiter (source part_000, line 61):
the configured message object is sent as the body; it carries no
request identifier. -/
def rateLimitResponse : Response :=
  { status := 429
    body := { error := "Too many requests, please try again later." } }

/-- Terminal error handler (source part_000, lines 183–207): maps the
error name to a fixed status and label, falls back to the internal
category with status `err.status || 500`, and copies `req.id` into the
body.  The second component records the branch taken as a spec label. -/
def errorHandler (production : Bool) (reqId : Option String) (e : JsError) :
    Response × ErrClass :=
  if e.name = "ValidationError" then
    ({ status := 400
       body := { error := "Validation Error", details := some e.message,
                 requestId := reqId } }, ErrClass.validation)
  else if e.name = "UnauthorizedError" then
    ({ status := 401
       body := { error := "Authentication Error", details := some e.message,
                 requestId := reqId } }, ErrClass.unauthorized)
  else
    ({ status := e.status.getD 500
       body := { error := "Internal Server Error",
                 message := some (if production then "Something went wrong" else e.message),
                 requestId := reqId } }, ErrClass.internal)

/-- Result of one stage: continue down the chain, respond directly
(short-circuit), or raise an error into the error chain. -/
inductive StageOut
  | proceed (st : PipeState)
  | halt (r : Response) (cls : Option ErrClass)
  | failed (e : JsError) (st : PipeState)
deriving Repr

/-- One middleware stage, from the source registrations.  `oa` is the
origin predicate of the variant under consideration (the local exact
list or the serverless `isAllowedOrigin`). -/
def runStage (oa : Option String → Bool) (cfg : Config) (req : Request)
    (st : PipeState) : Stage → StageOut
  | Stage.securityHeaders => StageOut.proceed st
  | Stage.compressionStage => StageOut.proceed st
  | Stage.originCheck =>
    if oa req.origin then StageOut.proceed st
    else StageOut.failed ⟨"Error", "Not allowed by CORS", none⟩ st
  | Stage.bodyParseJson => StageOut.proceed st
  | Stage.bodyParseUrlencoded => StageOut.proceed st
  | Stage.requestLog => StageOut.proceed { st with logRegistered := true }
  | Stage.contextAssign => StageOut.proceed { st with assignedId := some req.freshId }
  | Stage.rateLimiter =>
    if req.underApi then
      let r := rlHit cfg.windowMs st.rl req.time req.key
      if rlAdmit cfg.maxReq r.2 then StageOut.proceed { st with rl := r.1 }
      else StageOut.halt rateLimitResponse (some ErrClass.rateLimited)
    else StageOut.proceed st
  | Stage.speedLimiter =>
    if req.underApi then
      let r := rlHit 900000 st.sd req.time req.key
      StageOut.proceed { st with sd := r.1,
                                 delayed := st.delayed + sdDelay cfg.delayAfter cfg.delayMs r.2 }
    else StageOut.proceed st
  | Stage.dispatch =>
    match req.handler with
    | HandlerOut.ok s => StageOut.halt ⟨s, { error := "" }⟩ none
    | HandlerOut.raiseErr e => StageOut.failed e st

/-- Result of a full pipeline run: the stages that executed in order,
the response, the error label of the producing branch, the error-log
record (emitted by errorLogger on the error chain), the finish-log
record (emitted when the response completes, if the logging stage ran),
and the total artificial delay. -/
structure RunResult where
  executed : List Stage
  response : Response
  cls : Option ErrClass
  errLog : Option LogRecord
  finishLog : Option LogRecord
  delayed : Nat
deriving DecidableEq, Repr

/-- Finish-log record of the requestLogger (logger.js): registered on
response finish, reading `req.id` at that time. -/
def mkFinish (st : PipeState) : Option LogRecord :=
  if st.logRegistered then some ⟨st.assignedId⟩ else none

/-- Express chain execution: the stages run in registration order; a
halting stage responds at once; a failing stage skips the rest of the
chain into errorLogger and the terminal error handler.  An exhausted
chain is the framework 404 default (unreachable here: dispatch always
halts or fails). -/
def runStages (oa : Option String → Bool) (cfg : Config) (req : Request) :
    PipeState → List Stage → List Stage → RunResult
  | st, acc, [] =>
    { executed := acc.reverse
      response := ⟨404, { error := "Not Found" }⟩
      cls := none
      errLog := none
      finishLog := mkFinish st
      delayed := st.delayed }
  | st, acc, s :: rest =>
    match runStage oa cfg req st s with
    | StageOut.proceed st2 => runStages oa cfg req st2 (s :: acc) rest
    | StageOut.halt r c =>
      { executed := (s :: acc).reverse
        response := r
        cls := c
        errLog := none
        finishLog := mkFinish st
        delayed := st.delayed }
    | StageOut.failed e st2 =>
      { executed := (s :: acc).reverse
        response := (errorHandler cfg.production st2.assignedId e).1
        cls := some (errorHandler cfg.production st2.assignedId e).2
        errLog := some ⟨st2.assignedId⟩
        finishLog := mkFinish st2
        delayed := st2.delayed }

/-- Run one request through the registered pipeline from given admission
stores. -/
def runPipeline (oa : Option String → Bool) (cfg : Config) (req : Request)
    (rl sd : RLState) : RunResult :=
  runStages oa cfg req { rl := rl, sd := sd } [] pipelineStages

/-! ### Graceful shutdown (server.js, lines 11–34) -/

/-- Observable events of the shutdown handler. -/
inductive ShutEvent
  | redisQuit
  | redisQuitErrorLogged
  | redisClosedLogged
  | mongoClose
  | mongoClosedLogged
  | shutdownErrorLogged
  | exitCall (code : Nat)
deriving DecidableEq, Repr

/-- Process-wide connection state as seen by the shutdown handler:
the USE_REDIS flag, presence of the cache client, whether the cache
connection is open, the store readyState (0 means disconnected), and
whether each close step would fail. -/
structure World where
  useRedis : Bool
  redisPresent : Bool
  redisOpen : Bool
  mongoReadyState : Nat
  redisQuitFails : Bool
  mongoCloseFails : Bool
deriving DecidableEq, Repr

/-- Cache-connection step of gracefulShutdown (server.js, lines 14–21):
quit is invoked when USE_REDIS is set and the client exists; a quit
failure is caught in the inner handler, logged as a warning and
ignored. -/
def redisPhase (w : World) : List ShutEvent × World :=
  if w.useRedis && w.redisPresent then
    if w.redisQuitFails then
      ([ShutEvent.redisQuit, ShutEvent.redisQuitErrorLogged], w)
    else
      ([ShutEvent.redisQuit, ShutEvent.redisClosedLogged], { w with redisOpen := false })
  else ([], w)

/-- Store-connection step of gracefulShutdown (server.js, lines 22–30):
the store is closed when its readyState is not 0; a close failure is
caught by the outer handler, logged, and terminates the process with
status 1; otherwise the process exits with status 0. -/
def mongoPhase (w : World) : List ShutEvent × World :=
  if w.mongoReadyState ≠ 0 then
    if w.mongoCloseFails then
      ([ShutEvent.mongoClose, ShutEvent.shutdownErrorLogged, ShutEvent.exitCall 1], w)
    else
      ([ShutEvent.mongoClose, ShutEvent.mongoClosedLogged, ShutEvent.exitCall 0],
       { w with mongoReadyState := 0 })
  else ([ShutEvent.exitCall 0], w)

/-- The gracefulShutdown handler (server.js, lines 11–31): cache step
first, then store step, then exit.  The handler keeps no in-progress
flag. -/
def gracefulShutdown (w : World) : List ShutEvent × World :=
  ((redisPhase w).1 ++ (mongoPhase (redisPhase w).2).1, (mongoPhase (redisPhase w).2).2)

/-- Trace of the run in which a second termination signal arrives while
the first gracefulShutdown invocation is suspended at its first await
(the cache quit).  The handler is registered for both SIGTERM and
SIGINT with no re-entry guard, so the second invocation runs the whole
close sequence from the intermediate state and exits the process; the
first invocation never resumes. -/
def twoSignalTrace (w : World) : List ShutEvent :=
  (redisPhase w).1 ++ (gracefulShutdown (redisPhase w).2).1

/-! ### Best-effort cache-store initialization and response cache -/

/-- Logs and abort outcome of a startup step. -/
structure InitResult where
  logs : List String
  aborted : Bool
deriving DecidableEq, Repr

/-- Cache-store initialization (source part_000, lines 113–128 and
329–344): when the external store is enabled, present and not open, a
connect is attempted; a connect failure is caught inside the async
wrapper, logged, and followed by the in-memory continuation notice; no
branch aborts startup. -/
def redisInit (useRedis redisPresent isOpen connectFails : Bool) : InitResult :=
  if useRedis && redisPresent then
    if !isOpen then
      if connectFails then
        ⟨["Redis connection error:", "Continuing with in-memory cache"], false⟩
      else ⟨["Redis connected successfully"], false⟩
    else ⟨[], false⟩
  else ⟨["Running with in-memory cache (Redis disabled)"], false⟩

/-- Step taken by the response-cache middleware for one request. -/
inductive CacheStep
  | hit (value : String)
  | passToHandler
  | errorResp (status : Nat)
deriving DecidableEq, Repr

/-- Modelled from the spec: the response-cache middleware lives in
utils/cacheConfig.js, which is not among the sources.  Per §4.3 a
lookup against an unavailable external store is a miss and the request
proceeds to the backing handler uncached; a miss never blocks or errors
the request. -/
def cacheMiddleware (avail : Bool) (entries : List (String × String))
    (k : String) : CacheStep :=
  if avail then
    match List.lookup k entries with
    | some v => CacheStep.hit v
    | none => CacheStep.passToHandler
  else CacheStep.passToHandler

/-! ### Startup environment check -/

/-- The two required environment values. -/
structure EnvCfg where
  jwtSecret : Option String
  mongodbUri : Option String
deriving DecidableEq, Repr

/-- Required variable names (source part_000, lines 4 and 213). -/
def requiredEnvVars : List String := ["JWT_SECRET", "MONGODB_URI"]

/-- process.env lookup restricted to the two modelled variables. -/
def envGet (e : EnvCfg) (name : String) : Option String :=
  if name = "JWT_SECRET" then e.jwtSecret
  else if name = "MONGODB_URI" then e.mongodbUri
  else none

/-- JavaScript truthiness of an environment value: undefined and the
empty string are falsy. -/
def envTruthy (v : Option String) : Bool :=
  match v with
  | none => false
  | some s => s != ""

/-- Missing required variables (source part_000, lines 5 and 214). -/
def missingEnvVars (e : EnvCfg) : List String :=
  requiredEnvVars.filter (fun v => !envTruthy (envGet e v))

/-- How startup ends: process exit, a raised error, or a constructed
application ready to serve. -/
inductive StartOutcome
  | exitCode (code : Nat)
  | raiseMsg (msg : String)
  | appReady
deriving DecidableEq, Repr

/-- Startup guard of the local variant (source part_000, lines 7–10),
placed before the application is constructed: exit(1) on a missing
variable, otherwise the application is built and served. -/
def startupLocal (e : EnvCfg) : StartOutcome :=
  if 0 < (missingEnvVars e).length then StartOutcome.exitCode 1
  else StartOutcome.appReady

/-- Startup guard of the serverless variant (source part_000, lines
216–220): a missing variable raises instead of exiting. -/
def startupServerless (e : EnvCfg) : StartOutcome :=
  if 0 < (missingEnvVars e).length then
    StartOutcome.raiseMsg
      ("Missing required environment variables: " ++
        String.intercalate ", " (missingEnvVars e))
  else StartOutcome.appReady

/-! ### Concrete inputs used by witnesses and counterexamples -/

/-- A request whose origin the validator denies. -/
def deniedOriginReq : Request :=
  ⟨some "https://evil.com", false, "1.2.3.4", 0, "id-1", HandlerOut.ok 200⟩

/-- A plain allowed request outside the /api mount. -/
def plainOkReq : Request :=
  ⟨none, false, "1.2.3.4", 0, "id-0", HandlerOut.ok 200⟩

/-- The 101st request of the rate-limit scenario. -/
def apiReq : Request :=
  ⟨none, true, "1.2.3.4", 0, "id-101", HandlerOut.ok 200⟩

/-- A request whose handler raises a validation failure. -/
def validationReq : Request :=
  ⟨none, false, "1.2.3.4", 0, "id-7",
   HandlerOut.raiseErr ⟨"ValidationError", "bad input", none⟩⟩

/-- Admission store after one hundred counted requests of one key at
time zero (the spec scenario build-up). -/
def hundredHitState : RLState :=
  (rlRun 900000 (List.replicate 100 0) "1.2.3.4").1

/-- Store with sixty counted requests of the key in the live window. -/
def sixtyState : RLState := [("1.2.3.4", ⟨0, 60⟩)]

/-- World with both connections open and no close failures. -/
def bothOpenWorld : World := ⟨true, true, true, 1, false, false⟩

/-! ### Helper lemmas -/

theorem errorHandler_requestId (p : Bool) (rid : Option String) (e : JsError) :
    (errorHandler p rid e).1.body.requestId = rid := by
  by_cases h1 : e.name = "ValidationError" <;>
    by_cases h2 : e.name = "UnauthorizedError" <;>
      simp [errorHandler, h1, h2]

theorem errorHandler_cls_ne_rateLimited (p : Bool) (rid : Option String) (e : JsError) :
    (errorHandler p rid e).2 ≠ ErrClass.rateLimited := by
  by_cases h1 : e.name = "ValidationError" <;>
    by_cases h2 : e.name = "UnauthorizedError" <;>
      simp [errorHandler, h1, h2]

theorem runStage_halt_cases (oa : Option String → Bool) (cfg : Config) (req : Request)
    (st : PipeState) (s : Stage) (r : Response) (c : Option ErrClass)
    (h : runStage oa cfg req st s = StageOut.halt r c) :
    (r = rateLimitResponse ∧ c = some ErrClass.rateLimited) ∨ c = none := by
  cases s <;> simp only [runStage] at h
  case securityHeaders => injection h
  case compressionStage => injection h
  case originCheck => split at h <;> injection h
  case bodyParseJson => injection h
  case bodyParseUrlencoded => injection h
  case requestLog => injection h
  case contextAssign => injection h
  case rateLimiter =>
    split at h
    · split at h
      · injection h
      · injection h with hr hc
        exact Or.inl ⟨hr.symm, hc.symm⟩
    · injection h
  case speedLimiter => split at h <;> injection h
  case dispatch =>
    split at h
    · injection h with hr hc
      exact Or.inr hc.symm
    · injection h

theorem runStages_executed_app (oa : Option String → Bool) (cfg : Config) (req : Request) :
    ∀ (stages : List Stage) (st : PipeState) (acc : List Stage),
      ∃ t u, (runStages oa cfg req st acc stages).executed = acc.reverse ++ t ∧
        t ++ u = stages := by
  intro stages
  induction stages with
  | nil =>
    intro st acc
    exact ⟨[], [], by simp [runStages], rfl⟩
  | cons s rest ih =>
    intro st acc
    cases hso : runStage oa cfg req st s with
    | proceed st2 =>
      obtain ⟨t, u, h1, h2⟩ := ih st2 (s :: acc)
      refine ⟨s :: t, u, ?_, by simp [h2]⟩
      simp only [runStages, hso]
      rw [h1]
      simp
    | halt r c =>
      refine ⟨[s], rest, ?_, rfl⟩
      simp [runStages, hso]
    | failed e st2 =>
      refine ⟨[s], rest, ?_, rfl⟩
      simp [runStages, hso]

theorem runStages_resp_matches_errLog (oa : Option String → Bool) (cfg : Config) (req : Request) :
    ∀ (stages : List Stage) (st : PipeState) (acc : List Stage) (l : LogRecord),
      (runStages oa cfg req st acc stages).errLog = some l →
      (runStages oa cfg req st acc stages).response.body.requestId = l.requestId := by
  intro stages
  induction stages with
  | nil =>
    intro st acc l h
    simp [runStages] at h
  | cons s rest ih =>
    intro st acc l h
    cases hso : runStage oa cfg req st s with
    | proceed st2 =>
      simp only [runStages, hso] at h ⊢
      exact ih st2 (s :: acc) l h
    | halt r c =>
      simp only [runStages, hso] at h
      exact Option.noConfusion h
    | failed e st2 =>
      simp only [runStages, hso] at h ⊢
      cases h
      exact errorHandler_requestId cfg.production st2.assignedId e

theorem runStages_rateLimited_requestId (oa : Option String → Bool) (cfg : Config) (req : Request) :
    ∀ (stages : List Stage) (st : PipeState) (acc : List Stage),
      (runStages oa cfg req st acc stages).cls = some ErrClass.rateLimited →
      (runStages oa cfg req st acc stages).response.body.requestId = none := by
  intro stages
  induction stages with
  | nil =>
    intro st acc h
    simp [runStages] at h
  | cons s rest ih =>
    intro st acc h
    cases hso : runStage oa cfg req st s with
    | proceed st2 =>
      simp only [runStages, hso] at h ⊢
      exact ih st2 (s :: acc) h
    | halt r c =>
      simp only [runStages, hso] at h ⊢
      rcases runStage_halt_cases oa cfg req st s r c hso with ⟨hr, _⟩ | hc
      · subst hr; rfl
      · subst hc; cases h
    | failed e st2 =>
      simp only [runStages, hso] at h ⊢
      exact absurd (Option.some.inj h)
        (errorHandler_cls_ne_rateLimited cfg.production st2.assignedId e)

/-! ### Claim C4: the Origin Validator decision rules -/

/-- C4: the Origin Validator decides allow/deny by the rules in order:
an absent origin is allowed; an origin in the configured allow list is
allowed; an origin whose parsed host ends in the configured wildcard
suffix ".vercel.app" is allowed; every other present origin is denied.
The decision is the pure function `isAllowedOrigin` of the origin and
the configured set. -/
theorem origin_validator_rules :
    isAllowedOrigin none = true ∧
    (∀ o, o ∈ allowedOrigins → isAllowedOrigin (some o) = true) ∧
    (∀ o h, urlHostname? o = some h → strEndsWith h ".vercel.app" = true →
      isAllowedOrigin (some o) = true) ∧
    (∀ o, o ∉ allowedOrigins →
      (∀ h, urlHostname? o = some h → strEndsWith h ".vercel.app" = false) →
      isAllowedOrigin (some o) = false) := by
  refine ⟨rfl, ?_, ?_, ?_⟩
  · intro o ho
    simp [isAllowedOrigin, ho]
  · intro o h hh he
    by_cases hmem : o ∈ allowedOrigins
    · simp [isAllowedOrigin, hmem]
    · simp [isAllowedOrigin, hmem, hh, he]
  · intro o hmem hno
    simp only [isAllowedOrigin, if_neg hmem]
    cases hh : urlHostname? o with
    | none => rfl
    | some h => exact hno h hh

/-- Witness for C4 at concrete origins: an allow-list member, a wildcard
subdomain, and a denied origin. -/
theorem origin_validator_rules_witness :
    ("http://localhost:3000" ∈ allowedOrigins ∧
      isAllowedOrigin (some "http://localhost:3000") = true) ∧
    (urlHostname? "https://app.vercel.app" = some "app.vercel.app" ∧
      strEndsWith "app.vercel.app" ".vercel.app" = true ∧
      isAllowedOrigin (some "https://app.vercel.app") = true) ∧
    ("https://evil.com" ∉ allowedOrigins ∧
      isAllowedOrigin (some "https://evil.com") = false) :=
  ⟨⟨by decide, origin_validator_rules.2.1 _ (by decide)⟩,
   ⟨by decide, by decide,
    origin_validator_rules.2.2.1 "https://app.vercel.app" "app.vercel.app"
      (by decide) (by decide)⟩,
   ⟨by decide, origin_validator_rules.2.2.2 "https://evil.com" (by decide)
      (fun h hh => by
        have he : urlHostname? "https://evil.com" = some "evil.com" := by decide
        rw [he] at hh
        injection hh with hh2
        rw [← hh2]
        decide)⟩⟩

/-! ### Claim C2: classification of a denied origin -/

/-- C2 counterexample: the request whose origin "https://evil.com" the
validator denies is answered with status 500 and the generic internal
label, not with status 403 and a cross-origin label — the CORS error
reaches the terminal handler as an unclassified error. -/
theorem cors_denied_counterexample :
    (runPipeline isAllowedOrigin defaultConfig deniedOriginReq [] []).response.status = 500 ∧
    (runPipeline isAllowedOrigin defaultConfig deniedOriginReq [] []).response.body.error =
      "Internal Server Error" ∧
    (runPipeline isAllowedOrigin defaultConfig deniedOriginReq [] []).cls =
      some ErrClass.internal ∧
    ¬ ((runPipeline isAllowedOrigin defaultConfig deniedOriginReq [] []).response.status = 403 ∧
       (runPipeline isAllowedOrigin defaultConfig deniedOriginReq [] []).cls =
         some ErrClass.crossOriginDenied) := by
  decide

/-- C2 (amended): for every request whose origin the configured origin
predicate denies, the raised CORS error bypasses the remaining stages
and is classified by the terminal handler as a generic internal server
error: the response has status 500 with the label Internal Server Error
and the internal category; no 403 cross-origin classification exists in
the code. -/
theorem cors_denied_is_internal_500 (oa : Option String → Bool) (cfg : Config)
    (req : Request) (rl sd : RLState) (h : oa req.origin = false) :
    (runPipeline oa cfg req rl sd).response.status = 500 ∧
    (runPipeline oa cfg req rl sd).response.body.error = "Internal Server Error" ∧
    (runPipeline oa cfg req rl sd).cls = some ErrClass.internal := by
  simp [runPipeline, pipelineStages, runStages, runStage, h, errorHandler]

/-- Witness for C2 (amended) at the concrete denied origin. -/
theorem cors_denied_is_internal_500_witness :
    isAllowedOrigin deniedOriginReq.origin = false ∧
    ((runPipeline isAllowedOrigin defaultConfig deniedOriginReq [] []).response.status = 500 ∧
     (runPipeline isAllowedOrigin defaultConfig deniedOriginReq [] []).response.body.error =
       "Internal Server Error" ∧
     (runPipeline isAllowedOrigin defaultConfig deniedOriginReq [] []).cls =
       some ErrClass.internal) :=
  ⟨by decide,
   cors_denied_is_internal_500 isAllowedOrigin defaultConfig deniedOriginReq [] [] (by decide)⟩

/-! ### Claim C1: request identifiers in error responses -/

set_option maxRecDepth 4000 in
/-- C1 counterexample: the 101st request of the rate-limit scenario is
rejected with an error response of status 429 whose body carries no
request identifier at all, although the log record of that request does
carry the assigned non-empty identifier; the cross-origin denial
likewise produces a 500 body with no identifier. -/
theorem error_response_id_counterexample :
    ((runPipeline isAllowedOrigin defaultConfig apiReq hundredHitState []).response.status = 429 ∧
     (runPipeline isAllowedOrigin defaultConfig apiReq hundredHitState
        []).response.body.requestId = none ∧
     (runPipeline isAllowedOrigin defaultConfig apiReq hundredHitState []).finishLog =
       some ⟨some "id-101"⟩) ∧
    (400 ≤ (runPipeline isAllowedOrigin defaultConfig deniedOriginReq [] []).response.status ∧
     (runPipeline isAllowedOrigin defaultConfig deniedOriginReq
        [] []).response.body.requestId = none) := by
  decide

/-- C1 (amended): an error response produced by the terminal error
handler carries a requestId field equal to the identifier in the error
log record of that request; for a handler-raised error on a request
with an allowed origin outside the admission mount the identifier is
the one assigned by the context stage (non-empty whenever the generated
identifier is).  Rate-limit rejections, in contrast, send the fixed
limiter message without an identifier. -/
theorem error_response_id_matches_log (oa : Option String → Bool) (cfg : Config)
    (req : Request) (rl sd : RLState) :
    (∀ l, (runPipeline oa cfg req rl sd).errLog = some l →
      (runPipeline oa cfg req rl sd).response.body.requestId = l.requestId) ∧
    (oa req.origin = true → req.underApi = false →
      ∀ e, req.handler = HandlerOut.raiseErr e →
      (runPipeline oa cfg req rl sd).response.body.requestId = some req.freshId ∧
      (runPipeline oa cfg req rl sd).errLog = some ⟨some req.freshId⟩) ∧
    ((runPipeline oa cfg req rl sd).cls = some ErrClass.rateLimited →
      (runPipeline oa cfg req rl sd).response.body.requestId = none) := by
  refine ⟨?_, ?_, ?_⟩
  · intro l h
    exact runStages_resp_matches_errLog oa cfg req pipelineStages _ [] l h
  · intro h1 h2 e he
    have hid := errorHandler_requestId cfg.production (some req.freshId) e
    simp [runPipeline, pipelineStages, runStages, runStage, h1, h2, he, hid]
  · exact runStages_rateLimited_requestId oa cfg req pipelineStages _ []

/-- Witness for C1 (amended): a handler-raised validation failure gets
the assigned identifier in both the response body and the error log
record. -/
theorem error_response_id_matches_log_witness :
    isAllowedOrigin validationReq.origin = true ∧
    validationReq.underApi = false ∧
    validationReq.handler = HandlerOut.raiseErr ⟨"ValidationError", "bad input", none⟩ ∧
    ((runPipeline isAllowedOrigin defaultConfig validationReq [] []).response.body.requestId =
       some "id-7" ∧
     (runPipeline isAllowedOrigin defaultConfig validationReq [] []).errLog =
       some ⟨some "id-7"⟩) :=
  ⟨by decide, by decide, by decide,
   (error_response_id_matches_log isAllowedOrigin defaultConfig validationReq [] []).2.1
     (by decide) rfl _ rfl⟩

/-! ### Claim C5: middleware stage order -/

/-- C5 counterexample: on a request that executes every stage, the
origin check does not precede the security-headers stage — helmet is
registered first and the CORS check third, so the claimed total order
(origin check, then security headers, then compression, ...) is not the
order of the code. -/
theorem middleware_order_counterexample :
    (runPipeline isAllowedOrigin defaultConfig plainOkReq [] []).executed = pipelineStages ∧
    Stage.originCheck ∈ (runPipeline isAllowedOrigin defaultConfig plainOkReq [] []).executed ∧
    Stage.securityHeaders ∈
      (runPipeline isAllowedOrigin defaultConfig plainOkReq [] []).executed ∧
    ¬ ((runPipeline isAllowedOrigin defaultConfig plainOkReq [] []).executed.indexOf
         Stage.originCheck <
       (runPipeline isAllowedOrigin defaultConfig plainOkReq [] []).executed.indexOf
         Stage.securityHeaders) := by
  decide

/-- C5 (amended): the stages execute in the fixed registration order
security headers, compression, origin check, JSON body parse,
urlencoded body parse, request-log registration, context assignment,
ceiling limiter, delay limiter, dispatch; for every request the
executed stages are a prefix of this order (a failing or responding
stage short-circuits the remainder into the error path), and a request
with an allowed origin outside the admission mount executes all stages
in exactly this order. -/
theorem pipeline_fixed_order (oa : Option String → Bool) (cfg : Config)
    (req : Request) (rl sd : RLState) :
    (∃ u, (runPipeline oa cfg req rl sd).executed ++ u = pipelineStages) ∧
    (oa req.origin = true → req.underApi = false →
      (runPipeline oa cfg req rl sd).executed = pipelineStages) := by
  constructor
  · obtain ⟨t, u, h1, h2⟩ :=
      runStages_executed_app oa cfg req pipelineStages { rl := rl, sd := sd } []
    exact ⟨u, by simpa [runPipeline, h1] using h2⟩
  · intro h1 h2
    cases hh : req.handler <;>
      simp [runPipeline, pipelineStages, runStages, runStage, h1, h2, hh]

/-- Witness for C5 (amended): the plain allowed request executes the
full registered order. -/
theorem pipeline_fixed_order_witness :
    isAllowedOrigin plainOkReq.origin = true ∧
    plainOkReq.underApi = false ∧
    (runPipeline isAllowedOrigin defaultConfig plainOkReq [] []).executed = pipelineStages :=
  ⟨by decide, by decide,
   (pipeline_fixed_order isAllowedOrigin defaultConfig plainOkReq [] []).2
     (by decide) rfl⟩

/-! ### Claim C3: ceiling rejection at the (N+1)-th request -/

/-- C3: when the bucket of a client key already counts exactly the
configured ceiling inside a live window, the next request of that key
under the admission mount is rejected with status 429, the fixed
limiter message and the rate-limited classification; and any request of
that key at or after the end of the window is admitted again. -/
theorem ceiling_rejection (oa : Option String → Bool) (cfg : Config) (req : Request)
    (rl sd : RLState) (b : Bucket)
    (hapi : req.underApi = true)
    (horig : oa req.origin = true)
    (hb : rlLookup rl req.key = some b)
    (hcount : b.count = cfg.maxReq)
    (hin : req.time < b.windowStart + cfg.windowMs)
    (hmax : 0 < cfg.maxReq) :
    ((runPipeline oa cfg req rl sd).response = rateLimitResponse ∧
     (runPipeline oa cfg req rl sd).response.status = 429 ∧
     (runPipeline oa cfg req rl sd).cls = some ErrClass.rateLimited) ∧
    (∀ t, b.windowStart + cfg.windowMs ≤ t →
      rlAdmit cfg.maxReq (rlHit cfg.windowMs rl t req.key).2 = true) := by
  constructor
  · have hrej : rlAdmit cfg.maxReq (rlHit cfg.windowMs rl req.time req.key).2 = false := by
      simp [rlHit, hb, hin, rlAdmit, hcount]
    simp [runPipeline, pipelineStages, runStages, runStage, horig, hapi, hrej,
      rateLimitResponse]
  · intro t ht
    simp [rlHit, hb, rlAdmit, Nat.not_lt.mpr ht]
    exact hmax

set_option maxRecDepth 4000 in
/-- Witness for C3: after one hundred requests of one key at time zero
(all of them admitted), the bucket counts exactly the default ceiling,
the 101st request in the same window is rejected with 429 and the
rate-limited classification, and a request at the end of the window
(time 900000) is admitted again. -/
theorem ceiling_rejection_witness :
    ((rlRun 900000 (List.replicate 100 0) "1.2.3.4").2.all (rlAdmit 100) = true ∧
     rlLookup hundredHitState "1.2.3.4" = some ⟨0, 100⟩ ∧
     apiReq.underApi = true ∧ apiReq.time < 0 + 900000) ∧
    ((runPipeline isAllowedOrigin defaultConfig apiReq hundredHitState []).response =
       rateLimitResponse ∧
     (runPipeline isAllowedOrigin defaultConfig apiReq hundredHitState
        []).response.status = 429 ∧
     (runPipeline isAllowedOrigin defaultConfig apiReq hundredHitState []).cls =
       some ErrClass.rateLimited) ∧
    rlAdmit 100 (rlHit 900000 hundredHitState 900000 "1.2.3.4").2 = true :=
  ⟨⟨by decide, by decide, by decide, by decide⟩,
   (ceiling_rejection isAllowedOrigin defaultConfig apiReq hundredHitState [] ⟨0, 100⟩
      rfl (by decide) (by decide) rfl (by decide) (by decide)).1,
   (ceiling_rejection isAllowedOrigin defaultConfig apiReq hundredHitState [] ⟨0, 100⟩
      rfl (by decide) (by decide) rfl (by decide) (by decide)).2 900000 (by decide)⟩

/-! ### Claim C8: the delay stage admits with growing delay -/

/-- C8: a request of a key whose counters stand at c inside live
windows, with c+1 over the delay threshold but within the ceiling, is
admitted — every stage executes through dispatch, the rate-limited
rejection does not occur — and its added delay is (c+1 − threshold) ×
step; the added delay is a non-decreasing function of the count. -/
theorem delay_stage_growth (oa : Option String → Bool) (cfg : Config) (req : Request)
    (rl sd : RLState) (brl bsd : Bucket) (c : Nat)
    (hapi : req.underApi = true)
    (horig : oa req.origin = true)
    (hbrl : rlLookup rl req.key = some brl)
    (hcrl : brl.count = c)
    (hinrl : req.time < brl.windowStart + cfg.windowMs)
    (hbsd : rlLookup sd req.key = some bsd)
    (hcsd : bsd.count = c)
    (hinsd : req.time < bsd.windowStart + 900000)
    (hceil : c + 1 ≤ cfg.maxReq)
    (hover : cfg.delayAfter < c + 1) :
    ((runPipeline oa cfg req rl sd).executed = pipelineStages ∧
     (runPipeline oa cfg req rl sd).cls ≠ some ErrClass.rateLimited ∧
     (runPipeline oa cfg req rl sd).delayed = (c + 1 - cfg.delayAfter) * cfg.delayMs) ∧
    (∀ m n, m ≤ n →
      sdDelay cfg.delayAfter cfg.delayMs m ≤ sdDelay cfg.delayAfter cfg.delayMs n) := by
  constructor
  · have hadm : rlAdmit cfg.maxReq (rlHit cfg.windowMs rl req.time req.key).2 = true := by
      simp [rlHit, hbrl, hinrl, rlAdmit, hcrl]
      exact hceil
    have hdel : sdDelay cfg.delayAfter cfg.delayMs (rlHit 900000 sd req.time req.key).2 =
        (c + 1 - cfg.delayAfter) * cfg.delayMs := by
      simp [rlHit, hbsd, hinsd, hcsd, sdDelay, hover]
    refine ⟨?_, ?_, ?_⟩ <;>
      cases hh : req.handler <;>
        simp [runPipeline, pipelineStages, runStages, runStage, horig, hapi, hh,
          hadm, hdel, errorHandler_cls_ne_rateLimited]
  · intro m n hmn
    by_cases hm : cfg.delayAfter < m
    · have hn : cfg.delayAfter < n := lt_of_lt_of_le hm hmn
      simp only [sdDelay, if_pos hm, if_pos hn]
      exact Nat.mul_le_mul_right _ (Nat.sub_le_sub_right hmn _)
    · simp only [sdDelay, if_neg hm]
      exact Nat.zero_le _

/-- Witness for C8: with both counters at sixty in a live window, the
next request executes the whole pipeline with an added delay of
(61 − 50) × 500 = 5500 ms, and the delay function is monotone between
successive counts. -/
theorem delay_stage_growth_witness :
    (rlLookup sixtyState "1.2.3.4" = some ⟨0, 60⟩ ∧
     apiReq.underApi = true ∧ (60 : Nat) + 1 ≤ 100 ∧ (50 : Nat) < 60 + 1) ∧
    ((runPipeline isAllowedOrigin defaultConfig apiReq sixtyState sixtyState).executed =
       pipelineStages ∧
     (runPipeline isAllowedOrigin defaultConfig apiReq sixtyState sixtyState).cls ≠
       some ErrClass.rateLimited ∧
     (runPipeline isAllowedOrigin defaultConfig apiReq sixtyState sixtyState).delayed =
       (60 + 1 - 50) * 500) ∧
    sdDelay 50 500 51 ≤ sdDelay 50 500 52 :=
  ⟨⟨by decide, by decide, by decide, by decide⟩,
   (delay_stage_growth isAllowedOrigin defaultConfig apiReq sixtyState sixtyState
      ⟨0, 60⟩ ⟨0, 60⟩ 60 rfl (by decide) (by decide) rfl (by decide) (by decide) rfl
      (by decide) (by decide) (by decide)).1,
   (delay_stage_growth isAllowedOrigin defaultConfig apiReq sixtyState sixtyState
      ⟨0, 60⟩ ⟨0, 60⟩ 60 rfl (by decide) (by decide) rfl (by decide) (by decide) rfl
      (by decide) (by decide) (by decide)).2 51 52 (by decide)⟩

/-! ### Claim C6: shutdown ordering and exit codes -/

/-- C6: with the cache connection enabled and present and the store
connection open, the shutdown trace quits the cache before closing the
store; a cache-quit failure is logged as a warning and ignored (the
store close still happens); the final event is exit 0 when the store
close succeeds and exit 1 when it raises. -/
theorem shutdown_sequence (w : World)
    (hu : w.useRedis = true) (hp : w.redisPresent = true)
    (hm : w.mongoReadyState ≠ 0) :
    (ShutEvent.redisQuit ∈ (gracefulShutdown w).1 ∧
     ShutEvent.mongoClose ∈ (gracefulShutdown w).1 ∧
     (gracefulShutdown w).1.indexOf ShutEvent.redisQuit <
       (gracefulShutdown w).1.indexOf ShutEvent.mongoClose) ∧
    (w.redisQuitFails = true → ShutEvent.redisQuitErrorLogged ∈ (gracefulShutdown w).1 ∧
       ShutEvent.mongoClose ∈ (gracefulShutdown w).1) ∧
    (w.mongoCloseFails = false →
      (gracefulShutdown w).1.getLast? = some (ShutEvent.exitCall 0)) ∧
    (w.mongoCloseFails = true →
      (gracefulShutdown w).1.getLast? = some (ShutEvent.exitCall 1)) := by
  by_cases hq : w.redisQuitFails <;> by_cases hc : w.mongoCloseFails <;>
    simp [gracefulShutdown, redisPhase, mongoPhase, hu, hp, hq, hc, hm]

/-- Witness for C6 at the both-open world with no close failures. -/
theorem shutdown_sequence_witness :
    (bothOpenWorld.useRedis = true ∧ bothOpenWorld.redisPresent = true ∧
     bothOpenWorld.mongoReadyState ≠ 0) ∧
    (ShutEvent.redisQuit ∈ (gracefulShutdown bothOpenWorld).1 ∧
     ShutEvent.mongoClose ∈ (gracefulShutdown bothOpenWorld).1 ∧
     (gracefulShutdown bothOpenWorld).1.indexOf ShutEvent.redisQuit <
       (gracefulShutdown bothOpenWorld).1.indexOf ShutEvent.mongoClose) ∧
    (gracefulShutdown bothOpenWorld).1.getLast? = some (ShutEvent.exitCall 0) :=
  ⟨⟨rfl, rfl, by decide⟩,
   (shutdown_sequence bothOpenWorld rfl rfl (by decide)).1,
   (shutdown_sequence bothOpenWorld rfl rfl (by decide)).2.2.1 rfl⟩

/-! ### Claim C7: shutdown re-entrancy -/

/-- C7 counterexample: when a second termination signal arrives while
the first shutdown is suspended at the cache-quit await, the combined
trace contains two cache-quit invocations — the close sequence runs
again and the already-quit cache connection is quit a second time —
whereas a single shutdown run quits it exactly once.  The handler has
no in-progress guard, so the second signal is not a no-op. -/
theorem shutdown_reentry_counterexample :
    (twoSignalTrace bothOpenWorld).count ShutEvent.redisQuit = 2 ∧
    (gracefulShutdown bothOpenWorld).1.count ShutEvent.redisQuit = 1 ∧
    twoSignalTrace bothOpenWorld ≠ (gracefulShutdown bothOpenWorld).1 := by
  decide

/-- C7 (amended): the shutdown handler keeps no re-entry flag, so for
every state with the cache step enabled, a second termination signal
during the first invocation re-runs the whole close sequence: the
two-signal trace quits the cache connection twice while a single run
quits it once. -/
theorem shutdown_not_reentrant (w : World)
    (hu : w.useRedis = true) (hp : w.redisPresent = true) :
    (twoSignalTrace w).count ShutEvent.redisQuit = 2 ∧
    (gracefulShutdown w).1.count ShutEvent.redisQuit = 1 := by
  have hq1 : ∀ v : World, v.useRedis = true → v.redisPresent = true →
      (redisPhase v).1.count ShutEvent.redisQuit = 1 := by
    intro v h1 h2
    by_cases hf : v.redisQuitFails <;> simp [redisPhase, h1, h2, hf]
  have hm0 : ∀ v : World, (mongoPhase v).1.count ShutEvent.redisQuit = 0 := by
    intro v
    by_cases h0 : v.mongoReadyState ≠ 0 <;> by_cases hf : v.mongoCloseFails <;>
      simp [mongoPhase, h0, hf]
  have hpres : (redisPhase w).2.useRedis = true ∧ (redisPhase w).2.redisPresent = true := by
    by_cases hf : w.redisQuitFails <;> simp [redisPhase, hu, hp, hf]
  constructor
  · simp [twoSignalTrace, gracefulShutdown, List.count_append,
      hq1 w hu hp, hq1 (redisPhase w).2 hpres.1 hpres.2, hm0]
  · simp [gracefulShutdown, List.count_append, hq1 w hu hp, hm0]

/-- Witness for C7 (amended) at the both-open world. -/
theorem shutdown_not_reentrant_witness :
    (bothOpenWorld.useRedis = true ∧ bothOpenWorld.redisPresent = true) ∧
    ((twoSignalTrace bothOpenWorld).count ShutEvent.redisQuit = 2 ∧
     (gracefulShutdown bothOpenWorld).1.count ShutEvent.redisQuit = 1) :=
  ⟨⟨rfl, rfl⟩, shutdown_not_reentrant bothOpenWorld rfl rfl⟩

/-! ### Claim C9: cache-store connection failure is fail-open -/

/-- C9: a failed connect of the enabled external cache store logs the
error and the in-memory continuation notice and does not abort startup
(no branch of the initialization aborts); with the external store
unavailable the cache middleware always passes the request to the
backing handler and never produces an error response. -/
theorem cache_fail_open :
    redisInit true true false true =
      ⟨["Redis connection error:", "Continuing with in-memory cache"], false⟩ ∧
    (∀ u p o c, (redisInit u p o c).aborted = false) ∧
    (∀ entries k, cacheMiddleware false entries k = CacheStep.passToHandler) ∧
    (∀ avail entries k s, cacheMiddleware avail entries k ≠ CacheStep.errorResp s) := by
  refine ⟨rfl, ?_, ?_, ?_⟩
  · intro u p o c
    by_cases h1 : u && p <;> by_cases h2 : o <;> by_cases h3 : c <;>
      simp [redisInit, h1, h2, h3]
  · intro entries k
    rfl
  · intro avail entries k s
    by_cases ha : avail
    · cases hl : List.lookup k entries <;> simp [cacheMiddleware, ha, hl]
    · simp [cacheMiddleware, ha]

/-! ### Claim C10: required environment variables at startup -/

/-- C10: when JWT_SECRET or MONGODB_URI is unset, the local variant
exits with the nonzero status 1 and the serverless variant raises; in
neither variant does startup reach the constructed application, so no
request is ever served. -/
theorem env_check_aborts (e : EnvCfg)
    (h : e.jwtSecret = none ∨ e.mongodbUri = none) :
    (startupLocal e = StartOutcome.exitCode 1 ∧ (1 : Nat) ≠ 0) ∧
    (∃ m, startupServerless e = StartOutcome.raiseMsg m) ∧
    startupLocal e ≠ StartOutcome.appReady ∧
    startupServerless e ≠ StartOutcome.appReady := by
  have hmem : ∃ v, v ∈ missingEnvVars e := by
    rcases h with h | h
    · exact ⟨"JWT_SECRET", List.mem_filter.mpr ⟨by simp [requiredEnvVars],
        by simp [envGet, envTruthy, h]⟩⟩
    · exact ⟨"MONGODB_URI", List.mem_filter.mpr ⟨by simp [requiredEnvVars],
        by simp [envGet, envTruthy, h]⟩⟩
  obtain ⟨v, hv⟩ := hmem
  have hlen : 0 < (missingEnvVars e).length :=
    List.length_pos.mpr (List.ne_nil_of_mem hv)
  refine ⟨⟨by simp [startupLocal, hlen], by simp⟩, ?_,
    by simp [startupLocal, hlen],
    by simp [startupServerless, hlen]⟩
  exact ⟨"Missing required environment variables: " ++
      String.intercalate ", " (missingEnvVars e),
    by simp [startupServerless, hlen]⟩

/-- Witness for C10: with JWT_SECRET unset and MONGODB_URI set, the
local variant exits 1 and the serverless variant raises the message
naming the missing variable. -/
theorem env_check_aborts_witness :
    ((⟨none, some "mongodb://db"⟩ : EnvCfg).jwtSecret = none ∨
      (⟨none, some "mongodb://db"⟩ : EnvCfg).mongodbUri = none) ∧
    ((startupLocal ⟨none, some "mongodb://db"⟩ = StartOutcome.exitCode 1 ∧ (1 : Nat) ≠ 0) ∧
     (∃ m, startupServerless ⟨none, some "mongodb://db"⟩ = StartOutcome.raiseMsg m) ∧
     startupLocal ⟨none, some "mongodb://db"⟩ ≠ StartOutcome.appReady ∧
     startupServerless ⟨none, some "mongodb://db"⟩ ≠ StartOutcome.appReady) :=
  ⟨Or.inl rfl, env_check_aborts ⟨none, some "mongodb://db"⟩ (Or.inl rfl)⟩
